import Mathlib

set_option maxRecDepth 16384

/-!
Verification development for the agent control loops of the
`aws-genai-agent-solutions` repository (essay-writer-agent lessons).

Part 1 embeds the ReAct loop of `Lesson_1/Lesson_1_Student.ipynb`:
the action-line regular expression `^Action: (\w+): (.*)$`, the
`known_actions` registry lookup and the `query` driver loop.

Part 2 embeds the workflow graph of `Lesson_6/Lesson_6_Bedrock.ipynb`:
the `AgentState` record, the five graph nodes, the `should_continue`
conditional edge and the cyclic run
`planner → research_plan → (generate → reflect → research_critique)* → END`.

External collaborators (the Bedrock model client, `tavily.search`,
`json.loads` together with pydantic validation, and the registered
callables themselves) are modelled as function parameters ("oracles"),
exactly as the spec classifies them.  Python's `\w` for `str` patterns
is Unicode-aware (`SRE_UNI_IS_WORD`: Unicode alphanumeric or the
underscore); it is modelled by the code-point range table `wordRanges`
below, generated from CPython's regex engine over the full Unicode
character database (surrogate code points, not representable in `Char`,
are excluded; they match nothing).
-/

namespace ReAct

/-- Code-point ranges (inclusive) matched by CPython's `\w` in a `str`
pattern: the Unicode alphanumeric characters plus the underscore. -/
def wordRanges : List (Nat × Nat) :=
  [(48, 57), (65, 90), (95, 95), (97, 122), (170, 170), (178, 179), (181, 181), (185, 186),
   (188, 190), (192, 214), (216, 246), (248, 705), (710, 721), (736, 740), (748, 748), (750, 750),
   (880, 884), (886, 887), (890, 893), (895, 895), (902, 902), (904, 906), (908, 908), (910, 929),
   (931, 1013), (1015, 1153), (1162, 1327), (1329, 1366), (1369, 1369), (1376, 1416),
   (1488, 1514), (1519, 1522), (1568, 1610), (1632, 1641), (1646, 1647), (1649, 1747),
   (1749, 1749), (1765, 1766), (1774, 1788), (1791, 1791), (1808, 1808), (1810, 1839),
   (1869, 1957), (1969, 1969), (1984, 2026), (2036, 2037), (2042, 2042), (2048, 2069),
   (2074, 2074), (2084, 2084), (2088, 2088), (2112, 2136), (2144, 2154), (2160, 2183),
   (2185, 2190), (2208, 2249), (2308, 2361), (2365, 2365), (2384, 2384), (2392, 2401),
   (2406, 2415), (2417, 2432), (2437, 2444), (2447, 2448), (2451, 2472), (2474, 2480),
   (2482, 2482), (2486, 2489), (2493, 2493), (2510, 2510), (2524, 2525), (2527, 2529),
   (2534, 2545), (2548, 2553), (2556, 2556), (2565, 2570), (2575, 2576), (2579, 2600),
   (2602, 2608), (2610, 2611), (2613, 2614), (2616, 2617), (2649, 2652), (2654, 2654),
   (2662, 2671), (2674, 2676), (2693, 2701), (2703, 2705), (2707, 2728), (2730, 2736),
   (2738, 2739), (2741, 2745), (2749, 2749), (2768, 2768), (2784, 2785), (2790, 2799),
   (2809, 2809), (2821, 2828), (2831, 2832), (2835, 2856), (2858, 2864), (2866, 2867),
   (2869, 2873), (2877, 2877), (2908, 2909), (2911, 2913), (2918, 2927), (2929, 2935),
   (2947, 2947), (2949, 2954), (2958, 2960), (2962, 2965), (2969, 2970), (2972, 2972),
   (2974, 2975), (2979, 2980), (2984, 2986), (2990, 3001), (3024, 3024), (3046, 3058),
   (3077, 3084), (3086, 3088), (3090, 3112), (3114, 3129), (3133, 3133), (3160, 3162),
   (3165, 3165), (3168, 3169), (3174, 3183), (3192, 3198), (3200, 3200), (3205, 3212),
   (3214, 3216), (3218, 3240), (3242, 3251), (3253, 3257), (3261, 3261), (3293, 3294),
   (3296, 3297), (3302, 3311), (3313, 3314), (3332, 3340), (3342, 3344), (3346, 3386),
   (3389, 3389), (3406, 3406), (3412, 3414), (3416, 3425), (3430, 3448), (3450, 3455),
   (3461, 3478), (3482, 3505), (3507, 3515), (3517, 3517), (3520, 3526), (3558, 3567),
   (3585, 3632), (3634, 3635), (3648, 3654), (3664, 3673), (3713, 3714), (3716, 3716),
   (3718, 3722), (3724, 3747), (3749, 3749), (3751, 3760), (3762, 3763), (3773, 3773),
   (3776, 3780), (3782, 3782), (3792, 3801), (3804, 3807), (3840, 3840), (3872, 3891),
   (3904, 3911), (3913, 3948), (3976, 3980), (4096, 4138), (4159, 4169), (4176, 4181),
   (4186, 4189), (4193, 4193), (4197, 4198), (4206, 4208), (4213, 4225), (4238, 4238),
   (4240, 4249), (4256, 4293), (4295, 4295), (4301, 4301), (4304, 4346), (4348, 4680),
   (4682, 4685), (4688, 4694), (4696, 4696), (4698, 4701), (4704, 4744), (4746, 4749),
   (4752, 4784), (4786, 4789), (4792, 4798), (4800, 4800), (4802, 4805), (4808, 4822),
   (4824, 4880), (4882, 4885), (4888, 4954), (4969, 4988), (4992, 5007), (5024, 5109),
   (5112, 5117), (5121, 5740), (5743, 5759), (5761, 5786), (5792, 5866), (5870, 5880),
   (5888, 5905), (5919, 5937), (5952, 5969), (5984, 5996), (5998, 6000), (6016, 6067),
   (6103, 6103), (6108, 6108), (6112, 6121), (6128, 6137), (6160, 6169), (6176, 6264),
   (6272, 6276), (6279, 6312), (6314, 6314), (6320, 6389), (6400, 6430), (6470, 6509),
   (6512, 6516), (6528, 6571), (6576, 6601), (6608, 6618), (6656, 6678), (6688, 6740),
   (6784, 6793), (6800, 6809), (6823, 6823), (6917, 6963), (6981, 6988), (6992, 7001),
   (7043, 7072), (7086, 7141), (7168, 7203), (7232, 7241), (7245, 7293), (7296, 7304),
   (7312, 7354), (7357, 7359), (7401, 7404), (7406, 7411), (7413, 7414), (7418, 7418),
   (7424, 7615), (7680, 7957), (7960, 7965), (7968, 8005), (8008, 8013), (8016, 8023),
   (8025, 8025), (8027, 8027), (8029, 8029), (8031, 8061), (8064, 8116), (8118, 8124),
   (8126, 8126), (8130, 8132), (8134, 8140), (8144, 8147), (8150, 8155), (8160, 8172),
   (8178, 8180), (8182, 8188), (8304, 8305), (8308, 8313), (8319, 8329), (8336, 8348),
   (8450, 8450), (8455, 8455), (8458, 8467), (8469, 8469), (8473, 8477), (8484, 8484),
   (8486, 8486), (8488, 8488), (8490, 8493), (8495, 8505), (8508, 8511), (8517, 8521),
   (8526, 8526), (8528, 8585), (9312, 9371), (9450, 9471), (10102, 10131), (11264, 11492),
   (11499, 11502), (11506, 11507), (11517, 11517), (11520, 11557), (11559, 11559), (11565, 11565),
   (11568, 11623), (11631, 11631), (11648, 11670), (11680, 11686), (11688, 11694), (11696, 11702),
   (11704, 11710), (11712, 11718), (11720, 11726), (11728, 11734), (11736, 11742), (11823, 11823),
   (12293, 12295), (12321, 12329), (12337, 12341), (12344, 12348), (12353, 12438), (12445, 12447),
   (12449, 12538), (12540, 12543), (12549, 12591), (12593, 12686), (12690, 12693), (12704, 12735),
   (12784, 12799), (12832, 12841), (12872, 12879), (12881, 12895), (12928, 12937), (12977, 12991),
   (13312, 19903), (19968, 42124), (42192, 42237), (42240, 42508), (42512, 42539), (42560, 42606),
   (42623, 42653), (42656, 42735), (42775, 42783), (42786, 42888), (42891, 42954), (42960, 42961),
   (42963, 42963), (42965, 42969), (42994, 43009), (43011, 43013), (43015, 43018), (43020, 43042),
   (43056, 43061), (43072, 43123), (43138, 43187), (43216, 43225), (43250, 43255), (43259, 43259),
   (43261, 43262), (43264, 43301), (43312, 43334), (43360, 43388), (43396, 43442), (43471, 43481),
   (43488, 43492), (43494, 43518), (43520, 43560), (43584, 43586), (43588, 43595), (43600, 43609),
   (43616, 43638), (43642, 43642), (43646, 43695), (43697, 43697), (43701, 43702), (43705, 43709),
   (43712, 43712), (43714, 43714), (43739, 43741), (43744, 43754), (43762, 43764), (43777, 43782),
   (43785, 43790), (43793, 43798), (43808, 43814), (43816, 43822), (43824, 43866), (43868, 43881),
   (43888, 44002), (44016, 44025), (44032, 55203), (55216, 55238), (55243, 55291), (63744, 64109),
   (64112, 64217), (64256, 64262), (64275, 64279), (64285, 64285), (64287, 64296), (64298, 64310),
   (64312, 64316), (64318, 64318), (64320, 64321), (64323, 64324), (64326, 64433), (64467, 64829),
   (64848, 64911), (64914, 64967), (65008, 65019), (65136, 65140), (65142, 65276), (65296, 65305),
   (65313, 65338), (65345, 65370), (65382, 65470), (65474, 65479), (65482, 65487), (65490, 65495),
   (65498, 65500), (65536, 65547), (65549, 65574), (65576, 65594), (65596, 65597), (65599, 65613),
   (65616, 65629), (65664, 65786), (65799, 65843), (65856, 65912), (65930, 65931), (66176, 66204),
   (66208, 66256), (66273, 66299), (66304, 66339), (66349, 66378), (66384, 66421), (66432, 66461),
   (66464, 66499), (66504, 66511), (66513, 66517), (66560, 66717), (66720, 66729), (66736, 66771),
   (66776, 66811), (66816, 66855), (66864, 66915), (66928, 66938), (66940, 66954), (66956, 66962),
   (66964, 66965), (66967, 66977), (66979, 66993), (66995, 67001), (67003, 67004), (67072, 67382),
   (67392, 67413), (67424, 67431), (67456, 67461), (67463, 67504), (67506, 67514), (67584, 67589),
   (67592, 67592), (67594, 67637), (67639, 67640), (67644, 67644), (67647, 67669), (67672, 67702),
   (67705, 67742), (67751, 67759), (67808, 67826), (67828, 67829), (67835, 67867), (67872, 67897),
   (67968, 68023), (68028, 68047), (68050, 68096), (68112, 68115), (68117, 68119), (68121, 68149),
   (68160, 68168), (68192, 68222), (68224, 68255), (68288, 68295), (68297, 68324), (68331, 68335),
   (68352, 68405), (68416, 68437), (68440, 68466), (68472, 68497), (68521, 68527), (68608, 68680),
   (68736, 68786), (68800, 68850), (68858, 68899), (68912, 68921), (69216, 69246), (69248, 69289),
   (69296, 69297), (69376, 69415), (69424, 69445), (69457, 69460), (69488, 69505), (69552, 69579),
   (69600, 69622), (69635, 69687), (69714, 69743), (69745, 69746), (69749, 69749), (69763, 69807),
   (69840, 69864), (69872, 69881), (69891, 69926), (69942, 69951), (69956, 69956), (69959, 69959),
   (69968, 70002), (70006, 70006), (70019, 70066), (70081, 70084), (70096, 70106), (70108, 70108),
   (70113, 70132), (70144, 70161), (70163, 70187), (70272, 70278), (70280, 70280), (70282, 70285),
   (70287, 70301), (70303, 70312), (70320, 70366), (70384, 70393), (70405, 70412), (70415, 70416),
   (70419, 70440), (70442, 70448), (70450, 70451), (70453, 70457), (70461, 70461), (70480, 70480),
   (70493, 70497), (70656, 70708), (70727, 70730), (70736, 70745), (70751, 70753), (70784, 70831),
   (70852, 70853), (70855, 70855), (70864, 70873), (71040, 71086), (71128, 71131), (71168, 71215),
   (71236, 71236), (71248, 71257), (71296, 71338), (71352, 71352), (71360, 71369), (71424, 71450),
   (71472, 71483), (71488, 71494), (71680, 71723), (71840, 71922), (71935, 71942), (71945, 71945),
   (71948, 71955), (71957, 71958), (71960, 71983), (71999, 71999), (72001, 72001), (72016, 72025),
   (72096, 72103), (72106, 72144), (72161, 72161), (72163, 72163), (72192, 72192), (72203, 72242),
   (72250, 72250), (72272, 72272), (72284, 72329), (72349, 72349), (72368, 72440), (72704, 72712),
   (72714, 72750), (72768, 72768), (72784, 72812), (72818, 72847), (72960, 72966), (72968, 72969),
   (72971, 73008), (73030, 73030), (73040, 73049), (73056, 73061), (73063, 73064), (73066, 73097),
   (73112, 73112), (73120, 73129), (73440, 73458), (73648, 73648), (73664, 73684), (73728, 74649),
   (74752, 74862), (74880, 75075), (77712, 77808), (77824, 78894), (82944, 83526), (92160, 92728),
   (92736, 92766), (92768, 92777), (92784, 92862), (92864, 92873), (92880, 92909), (92928, 92975),
   (92992, 92995), (93008, 93017), (93019, 93025), (93027, 93047), (93053, 93071), (93760, 93846),
   (93952, 94026), (94032, 94032), (94099, 94111), (94176, 94177), (94179, 94179),
   (94208, 100343), (100352, 101589), (101632, 101640), (110576, 110579), (110581, 110587),
   (110589, 110590), (110592, 110882), (110928, 110930), (110948, 110951), (110960, 111355),
   (113664, 113770), (113776, 113788), (113792, 113800), (113808, 113817), (119520, 119539),
   (119648, 119672), (119808, 119892), (119894, 119964), (119966, 119967), (119970, 119970),
   (119973, 119974), (119977, 119980), (119982, 119993), (119995, 119995), (119997, 120003),
   (120005, 120069), (120071, 120074), (120077, 120084), (120086, 120092), (120094, 120121),
   (120123, 120126), (120128, 120132), (120134, 120134), (120138, 120144), (120146, 120485),
   (120488, 120512), (120514, 120538), (120540, 120570), (120572, 120596), (120598, 120628),
   (120630, 120654), (120656, 120686), (120688, 120712), (120714, 120744), (120746, 120770),
   (120772, 120779), (120782, 120831), (122624, 122654), (123136, 123180), (123191, 123197),
   (123200, 123209), (123214, 123214), (123536, 123565), (123584, 123627), (123632, 123641),
   (124896, 124902), (124904, 124907), (124909, 124910), (124912, 124926), (124928, 125124),
   (125127, 125135), (125184, 125251), (125259, 125259), (125264, 125273), (126065, 126123),
   (126125, 126127), (126129, 126132), (126209, 126253), (126255, 126269), (126464, 126467),
   (126469, 126495), (126497, 126498), (126500, 126500), (126503, 126503), (126505, 126514),
   (126516, 126519), (126521, 126521), (126523, 126523), (126530, 126530), (126535, 126535),
   (126537, 126537), (126539, 126539), (126541, 126543), (126545, 126546), (126548, 126548),
   (126551, 126551), (126553, 126553), (126555, 126555), (126557, 126557), (126559, 126559),
   (126561, 126562), (126564, 126564), (126567, 126570), (126572, 126578), (126580, 126583),
   (126585, 126588), (126590, 126590), (126592, 126601), (126603, 126619), (126625, 126627),
   (126629, 126633), (126635, 126651), (127232, 127244), (130032, 130041), (131072, 173791),
   (173824, 177976), (177984, 178205), (178208, 183969), (183984, 191456), (194560, 195101),
   (196608, 201546)]

/-- Python's `\w` character class for `str` patterns: Unicode
alphanumeric or underscore.  `[A-Za-z0-9_]` is its ASCII subset (the
first four ranges); letters such as `é` are word characters too. -/
def isWordChar (c : Char) : Bool :=
  wordRanges.any (fun p => p.1 ≤ c.toNat && c.toNat ≤ p.2)

/-- Consume an exact literal from the front of a character list,
returning the remainder (models the fixed parts of the regex). -/
def expectLit : List Char → List Char → Option (List Char)
  | [], cs => some cs
  | _ :: _, [] => none
  | p :: ps, c :: cs => if c = p then expectLit ps cs else none

/-- Greedily take the maximal run of word characters (models `(\w+)`,
whose greedy match cannot be shortened by backtracking because the
character after the run is never a word character). -/
def takeWord : List Char → List Char × List Char
  | [] => ([], [])
  | c :: cs =>
    if isWordChar c then
      let (w, r) := takeWord cs
      (c :: w, r)
    else ([], c :: cs)

/-- Embedding of `action_re.match` for one line:
`action_re = re.compile("^Action: (\w+): (.*)$")`.
Returns `(name, argument)`; the argument is the remainder of the line
verbatim (the regex captures `(.*)` with no trimming). -/
def lineMatch (cs : List Char) : Option (List Char × List Char) :=
  match expectLit ("Action: ".data) cs with
  | none => none
  | some rest =>
    if (takeWord rest).1 = [] then none
    else
      match expectLit (": ".data) (takeWord rest).2 with
      | none => none
      | some arg => some ((takeWord rest).1, arg)

/-- Split a character list at `'\n'`, keeping empty pieces
(models Python `result.split("\n")`). -/
def splitLines : List Char → List (List Char)
  | [] => [[]]
  | c :: rest =>
    match splitLines rest with
    | [] => [[]]
    | l :: ls => if c = '\n' then [] :: l :: ls else (c :: l) :: ls

/-- First line that matches the action regex, scanning in order
(models `[action_re.match(a) for a in result.split("\n") if ...][0]`). -/
def firstMatch : List (List Char) → Option (List Char × List Char)
  | [] => none
  | l :: ls =>
    match lineMatch l with
    | some m => some m
    | none => firstMatch ls

/-- Action extraction from a whole assistant text: first matching line wins. -/
def firstAction (text : String) : Option (String × String) :=
  match firstMatch (splitLines text.data) with
  | some (n, a) => some (String.mk n, String.mk a)
  | none => none

/-- A message of the Bedrock conversation (role plus text). -/
inductive Role where
  | user
  | assistant
  deriving DecidableEq, Repr

structure Msg where
  role : Role
  text : String
  deriving DecidableEq, Repr

/-- The action registry `known_actions`: an association of names to
string-to-string callables, looked up exactly and case-sensitively. -/
def Registry := List (String × (String → String))

def lookupAction (reg : Registry) (name : String) : Option (String → String) :=
  match reg with
  | [] => none
  | (n, f) :: rest => if n = name then some f else lookupAction rest name

/-- Result of the `query` driver loop.  `answer` is the terminating
turn's full assistant text (the loop's `else: return` branch, where the
text was just emitted), `unknownAction` is the raised
`Exception("Unknown action: ...")`, and `incomplete` is the silent fall
through when `while i < max_turns` ends. -/
inductive QueryResult where
  | answer (text : String)
  | unknownAction (name arg : String)
  | incomplete
  deriving DecidableEq, Repr

/-- One turn plus recursion of the `query` loop; `fuel` is
`max_turns - i`, `msgs` the session history of the `Agent`, `calls`
counts model invocations so far.  The model client is the oracle
`model : List Msg → String` (the fixed system prompt and inference
parameters live inside the oracle). -/
def queryGo (model : List Msg → String) (reg : Registry) :
    Nat → List Msg → String → Nat → QueryResult × Nat
  | 0, _, _, calls => (.incomplete, calls)
  | fuel + 1, msgs, nextPrompt, calls =>
    let msgs1 := msgs ++ [⟨.user, nextPrompt⟩]
    let result := model msgs1
    match firstAction result with
    | none => (.answer result, calls + 1)
    | some (name, arg) =>
      match lookupAction reg name with
      | none => (.unknownAction name arg, calls + 1)
      | some f =>
        queryGo model reg fuel (msgs1 ++ [⟨.assistant, result⟩])
          ("Observation: " ++ f arg) (calls + 1)

/-- Embedding of `def query(question, max_turns=5)`. -/
def query (model : List Msg → String) (reg : Registry)
    (question : String) (maxTurns : Nat) : QueryResult × Nat :=
  queryGo model reg maxTurns [] question 0

end ReAct

namespace Workflow

/-- First index of a character (Python `str.find`, before the -1 coding). -/
def firstIdxOf : List Char → Char → Option Nat
  | [], _ => none
  | x :: xs, c => if x = c then some 0 else (firstIdxOf xs c).map (· + 1)

/-- Last index of a character (Python `str.rfind`, before the -1 coding). -/
def lastIdxOf : List Char → Char → Option Nat
  | [], _ => none
  | x :: xs, c =>
    match lastIdxOf xs c with
    | some k => some (k + 1)
    | none => if x = c then some 0 else none

/-- Python `str.find`: index of first occurrence, `-1` if absent. -/
def pyFind (s : String) (c : Char) : Int :=
  match firstIdxOf s.data c with
  | some k => (k : Int)
  | none => -1

/-- Python `str.rfind`: index of last occurrence, `-1` if absent. -/
def pyRFind (s : String) (c : Char) : Int :=
  match lastIdxOf s.data c with
  | some k => (k : Int)
  | none => -1

/-- Normalise one Python slice bound: negative indices count from the
end, everything is clamped into `[0, len]`. -/
def pyIndex (len : Nat) (i : Int) : Nat :=
  if i < 0 then ((len : Int) + i).toNat else min i.toNat len

/-- Python slice `cs[a:b]`. -/
def pySlice (cs : List Char) (a b : Int) : List Char :=
  (cs.take (pyIndex cs.length b)).drop (pyIndex cs.length a)

/-- The JSON-locating step of the research nodes:
`json_str = queries_text[queries_text.find("{") : queries_text.rfind("}") + 1]`. -/
def extractJsonStr (text : String) : String :=
  String.mk (pySlice text.data (pyFind text '{') (pyRFind text '}' + 1))

/-- Embedding of the `AgentState` TypedDict.  `content` and
`revision_number` are `Option`s because the run is seeded without a
`content` key and `generation_node` reads `revision_number` through
`state.get(...)`; `plan`, `draft` and `critique` are always written
before any node reads them on the executed paths. -/
structure AgentState where
  task : String
  plan : String
  draft : String
  critique : String
  content : Option (List String)
  revision_number : Option Int
  max_revisions : Int
  deriving DecidableEq, Repr

/-- The external collaborators of the workflow: the model client
(one entry per distinct prompt shape), the `json.loads` + pydantic
`Queries(**d)` pipeline, and `tavily.search` (each call returns the
`r["content"]` snippets of its bounded result list). -/
structure Oracles where
  planModel : String → String
  draftModel : String → String → String → String
  critiqueModel : String → String
  planQueriesModel : String → String
  critiqueQueriesModel : String → String
  decode : String → Option (List String)
  search : String → List String

/-- Failure modes that surface from a run. -/
inductive RunErr where
  | parse
  | keyMissing
  | fuelOut
  deriving DecidableEq, Repr

/-- `plan_node`: one model call, overwrites `plan`. -/
def plan_node (O : Oracles) (s : AgentState) : AgentState :=
  { s with plan := O.planModel s.task }

/-- `research_plan_node`: one model call, locate and decode the JSON
payload, then one `tavily.search` per query, appending every returned
snippet to `content`.  The returned list has one entry per retrieval
call (the snippets of that call), in call order. -/
def research_plan_node (O : Oracles) (s : AgentState) :
    Except RunErr (AgentState × List (List String)) :=
  let raw := O.planQueriesModel s.task
  match O.decode (extractJsonStr raw) with
  | none => .error .parse
  | some qs =>
    let calls := qs.map O.search
    .ok ({ s with content := some (s.content.getD [] ++ calls.flatten) }, calls)

/-- `generation_node`: one model call over task, plan and the joined
`content`; overwrites `draft` and sets
`revision_number = state.get("revision_number", 1) + 1`. -/
def generation_node (O : Oracles) (s : AgentState) : AgentState :=
  { s with
    draft :=
      O.draftModel (String.intercalate "\n\n" (s.content.getD [])) s.task s.plan
    revision_number := some (s.revision_number.getD 1 + 1) }

/-- `reflection_node`: one model call, overwrites `critique`. -/
def reflection_node (O : Oracles) (s : AgentState) : AgentState :=
  { s with critique := O.critiqueModel s.draft }

/-- `research_critique_node`: identical mechanics to
`research_plan_node`, but the queries derive from `critique`. -/
def research_critique_node (O : Oracles) (s : AgentState) :
    Except RunErr (AgentState × List (List String)) :=
  let raw := O.critiqueQueriesModel s.critique
  match O.decode (extractJsonStr raw) with
  | none => .error .parse
  | some qs =>
    let calls := qs.map O.search
    .ok ({ s with content := some (s.content.getD [] ++ calls.flatten) }, calls)

/-- The langgraph `END` sentinel. -/
def ENDNode : String := "__end__"

/-- `should_continue`: the conditional edge out of `generate`.
`none` models the `KeyError` Python would raise were
`revision_number` absent. -/
def should_continue (s : AgentState) : Option String :=
  match s.revision_number with
  | none => none
  | some r => some (if r > s.max_revisions then ENDNode else "reflect")

/-- The cyclic part of the graph:
`generate → (END | reflect → research_critique → generate → ...)`.
`gens` counts `generate` executions, `log` accumulates one entry per
retrieval call.  `fuel` bounds the recursion and is unreachable when
chosen at least `max_revisions`. -/
def runCycles (O : Oracles) :
    Nat → AgentState → Nat → List (List String) →
    Except RunErr (AgentState × Nat × List (List String))
  | 0, _, _, _ => .error .fuelOut
  | fuel + 1, s, gens, log =>
    let s1 := generation_node O s
    match should_continue s1 with
    | none => .error .keyMissing
    | some dest =>
      if dest = ENDNode then .ok (s1, gens + 1, log)
      else
        let s2 := reflection_node O s1
        match research_critique_node O s2 with
        | .error e => .error e
        | .ok (s3, calls) => runCycles O fuel s3 (gens + 1) (log ++ calls)

/-- The state the demo seeds the stream with:
`{"task": ..., "max_revisions": N, "revision_number": 1}`. -/
def initState (task : String) (maxRev : Int) : AgentState :=
  { task := task, plan := "", draft := "", critique := "",
    content := none, revision_number := some 1, max_revisions := maxRev }

/-- A full run of the compiled graph from the entry point `planner`.
Returns the final state, the number of `generate` executions, and the
per-retrieval-call snippet log in call order. -/
def runWorkflow (O : Oracles) (task : String) (maxRev : Int) (fuel : Nat) :
    Except RunErr (AgentState × Nat × List (List String)) :=
  let s1 := plan_node O (initState task maxRev)
  match research_plan_node O s1 with
  | .error e => .error e
  | .ok (s2, calls) => runCycles O fuel s2 0 calls

end Workflow

namespace ReAct

theorem expectLit_eq : ∀ ps cs r : List Char, expectLit ps cs = some r → cs = ps ++ r
  | [], cs, r, h => by simp [expectLit] at h; simpa using h
  | p :: ps, [], r, h => by simp [expectLit] at h
  | p :: ps, c :: cs, r, h => by
    by_cases hc : c = p
    · subst hc
      simp only [expectLit, if_pos rfl] at h
      simpa using expectLit_eq ps cs r h
    · simp [expectLit, hc] at h

theorem takeWord_decomp : ∀ cs : List Char, cs = (takeWord cs).1 ++ (takeWord cs).2
  | [] => rfl
  | c :: cs => by
    by_cases hc : isWordChar c
    · simp only [takeWord, hc, if_pos]
      simpa using takeWord_decomp cs
    · simp [takeWord, hc]

theorem takeWord_word : ∀ (cs : List Char) (c : Char),
    c ∈ (takeWord cs).1 → isWordChar c = true
  | [], c, h => by simp [takeWord] at h
  | x :: cs, c, h => by
    by_cases hx : isWordChar x
    · simp only [takeWord, hx, if_pos] at h
      rcases List.mem_cons.mp (by simpa using h) with h1 | h1
      · exact h1 ▸ hx
      · exact takeWord_word cs c h1
    · simp [takeWord, hx] at h

theorem lineMatch_decomp (cs n a : List Char) (h : lineMatch cs = some (n, a)) :
    cs = "Action: ".data ++ n ++ ": ".data ++ a ∧ n ≠ [] ∧
      ∀ c ∈ n, isWordChar c = true := by
  unfold lineMatch at h
  cases h1 : expectLit ("Action: ".data) cs with
  | none => rw [h1] at h; cases h
  | some rest =>
    rw [h1] at h
    dsimp only at h
    by_cases hw : (takeWord rest).1 = []
    · rw [if_pos hw] at h; cases h
    · rw [if_neg hw] at h
      cases h3 : expectLit (": ".data) (takeWord rest).2 with
      | none => rw [h3] at h; cases h
      | some arg =>
        rw [h3] at h
        injection h with h4
        obtain ⟨hn, ha⟩ := Prod.mk.injEq _ _ _ _ |>.mp h4
        subst hn
        subst ha
        refine ⟨?_, hw, fun c hc => takeWord_word rest c hc⟩
        have e1 : cs = "Action: ".data ++ rest := expectLit_eq _ _ _ h1
        have e2 : rest = (takeWord rest).1 ++ (takeWord rest).2 := takeWord_decomp rest
        have e3 : (takeWord rest).2 = ": ".data ++ arg := expectLit_eq _ _ _ h3
        rw [e1]
        conv_lhs => rw [e2]
        rw [e3]
        simp [List.append_assoc]

end ReAct

namespace ReAct

theorem queryGo_calls_le (model : List Msg → String) (reg : Registry) :
    ∀ (fuel : Nat) (msgs : List Msg) (p : String) (calls : Nat),
      (queryGo model reg fuel msgs p calls).2 ≤ calls + fuel := by
  intro fuel
  induction fuel with
  | zero => intro msgs p calls; simp [queryGo]
  | succ n ih =>
    intro msgs p calls
    rcases hfa : firstAction (model (msgs ++ [⟨Role.user, p⟩])) with _ | ⟨name, arg⟩
    · simp only [queryGo, hfa]
      omega
    · rcases hl : lookupAction reg name with _ | f
      · simp only [queryGo, hfa, hl]
        omega
      · simp only [queryGo, hfa, hl]
        exact le_trans (ih _ _ _) (by omega)

theorem queryGo_incomplete (model : List Msg → String) (reg : Registry)
    (hact : ∀ msgs : List Msg, ∃ name arg,
      firstAction (model msgs) = some (name, arg) ∧
        (lookupAction reg name).isSome = true) :
    ∀ (fuel : Nat) (msgs : List Msg) (p : String) (calls : Nat),
      (queryGo model reg fuel msgs p calls).1 = QueryResult.incomplete := by
  intro fuel
  induction fuel with
  | zero => intro msgs p calls; rfl
  | succ n ih =>
    intro msgs p calls
    obtain ⟨name, arg, hfa, hl⟩ := hact (msgs ++ [⟨Role.user, p⟩])
    obtain ⟨f, hf⟩ := Option.isSome_iff_exists.mp hl
    simp only [queryGo, hfa, hf]
    exact ih _ _ _

end ReAct

/-- C2 counterexample: two parts of the claim fail on the code.  The
argument is not whitespace-trimmed: the regex `^Action: (\w+): (.*)$`
captures the remainder verbatim, so on `"Action: calculate: 2 "` the
code extracts `"2 "` (trailing space kept), not the trimmed `"2"`.  And
the name is not drawn from `[A-Za-z0-9_]+`: Python's `\w` is
Unicode-aware, so `"Action: café: x"` matches with name `"café"`, whose
`é` lies outside `[A-Za-z0-9_]`. -/
theorem c2_counterexample :
    ReAct.firstAction "Action: calculate: 2 " = some ("calculate", "2 ") ∧
    ReAct.firstAction "Action: calculate: 2 " ≠ some ("calculate", "2") ∧
    ReAct.firstAction "Action: café: x" = some ("café", "x") ∧
    ¬ (∀ c ∈ "café".data, (c.isAlphanum || c = '_') = true) := by
  exact ⟨by decide, by decide, by decide, by decide⟩

/-- C2 (amended): the parse step scans the lines in order and selects the
first line matching `^Action: <name>: <argument>$` with `<name>` a
nonempty run of Python word characters (`\w`: Unicode alphanumerics and
the underscore — a superset of `[A-Za-z0-9_]`), later matching lines
ignored, extracting the name and, as argument, the remainder of the line
verbatim (no whitespace trimming); in particular
`"Action: average_dog_weight: Toy Poodle"` yields name
`average_dog_weight` and argument `Toy Poodle`. -/
theorem c2_action_grammar_amended :
    ReAct.firstAction "Action: average_dog_weight: Toy Poodle"
      = some ("average_dog_weight", "Toy Poodle") ∧
    (∀ (l : List Char) (ls : List (List Char)) (m : List Char × List Char),
      ReAct.lineMatch l = some m → ReAct.firstMatch (l :: ls) = some m) ∧
    (∀ (l : List Char) (ls : List (List Char)),
      ReAct.lineMatch l = none → ReAct.firstMatch (l :: ls) = ReAct.firstMatch ls) ∧
    (∀ text : String, ReAct.firstAction text =
      (ReAct.firstMatch (ReAct.splitLines text.data)).map
        (fun p => (String.mk p.1, String.mk p.2))) ∧
    (∀ cs n a : List Char, ReAct.lineMatch cs = some (n, a) →
      cs = "Action: ".data ++ n ++ ": ".data ++ a ∧ n ≠ [] ∧
        ∀ c ∈ n, ReAct.isWordChar c = true) := by
  refine ⟨by decide, ?_, ?_, ?_, ?_⟩
  · intro l ls m hm
    simp [ReAct.firstMatch, hm]
  · intro l ls hm
    simp [ReAct.firstMatch, hm]
  · intro text
    unfold ReAct.firstAction
    cases h : ReAct.firstMatch (ReAct.splitLines text.data) with
    | none => rfl
    | some p => obtain ⟨n, a⟩ := p; rfl
  · intro cs n a h
    exact ReAct.lineMatch_decomp cs n a h

/-- C2 witness: the amended theorem applied at concrete inputs — the
first matching line wins over a later one, and a matched line decomposes
into the verbatim pieces. -/
theorem c2_witness :
    ReAct.firstMatch ["Action: fly: moon".data, "Action: calculate: 2".data]
      = some ("fly".data, "moon".data) ∧
    ("Action: cal_c9: x  y".data
        = "Action: ".data ++ "cal_c9".data ++ ": ".data ++ "x  y".data ∧
      "cal_c9".data ≠ [] ∧
      ∀ c ∈ "cal_c9".data, ReAct.isWordChar c = true) :=
  ⟨c2_action_grammar_amended.2.1 _ _ _ (by decide),
   c2_action_grammar_amended.2.2.2.2 _ _ _ (by decide)⟩

/-- C4: on every turn of the ReAct loop whose assistant text contains no
line matching the action grammar, the loop terminates successfully on
that turn (the `else: return` branch) and the full assistant text is the
final answer. -/
theorem c4_no_action_terminates (model : List ReAct.Msg → String)
    (reg : ReAct.Registry) (fuel : Nat) (msgs : List ReAct.Msg)
    (p : String) (calls : Nat)
    (h : ReAct.firstAction (model (msgs ++ [⟨ReAct.Role.user, p⟩])) = none) :
    ReAct.queryGo model reg (fuel + 1) msgs p calls
      = (ReAct.QueryResult.answer (model (msgs ++ [⟨ReAct.Role.user, p⟩])), calls + 1) := by
  simp only [ReAct.queryGo, h]

/-- Model oracle that never emits an action directive. -/
def noActionModel : List ReAct.Msg → String := fun _ => "The answer is 42 lbs"

/-- C4 witness: with a model whose text has no action line, the very
first turn returns that text as the answer after one model call. -/
theorem c4_witness :
    ReAct.queryGo noActionModel [] 5 [] "How much?" 0
      = (ReAct.QueryResult.answer "The answer is 42 lbs", 1) :=
  c4_no_action_terminates noActionModel [] 4 [] "How much?" 0 (by decide)

/-- Model oracle that always names an unregistered action. -/
def flyModel : List ReAct.Msg → String := fun _ => "Action: fly: to the moon"

/-- Model oracle that always names the registered `calculate` action. -/
def calcModel : List ReAct.Msg → String := fun _ => "Action: calculate: 4 * 7"

/-- Concrete stand-in for `known_actions`: same two registered names;
the callables themselves are external collaborators. -/
def demoRegistry : ReAct.Registry :=
  [("calculate", fun s => s ++ " = 28"),
   ("average_dog_weight", fun _ => "An average dog weights 50 lbs")]

/-- C5 counterexample: the claim promises an Incomplete result whenever
every turn's text has an action line, but with `turn_limit = 1` and a
model that always emits `"Action: fly: to the moon"` (an action line
naming an unregistered action) the loop raises the unknown-action
exception instead of stopping silently with Incomplete. -/
theorem c5_counterexample :
    ReAct.firstAction "Action: fly: to the moon" = some ("fly", "to the moon") ∧
    (ReAct.query flyModel demoRegistry "q" 1).1
      = ReAct.QueryResult.unknownAction "fly" "to the moon" ∧
    ReAct.QueryResult.unknownAction "fly" "to the moon" ≠ ReAct.QueryResult.incomplete := by
  refine ⟨by decide, rfl, by decide⟩

/-- C5 (amended): for every `turn_limit = N` the ReAct loop performs at
most `N` model invocations; and when every assistant text contains an
action line whose name is registered, the loop stops silently after the
`N`-th turn and returns the Incomplete result (no exception). -/
theorem c5_turn_bound_amended :
    (∀ (model : List ReAct.Msg → String) (reg : ReAct.Registry) (N : Nat) (q : String),
      (ReAct.query model reg q N).2 ≤ N) ∧
    (∀ (model : List ReAct.Msg → String) (reg : ReAct.Registry) (N : Nat) (q : String),
      (∀ msgs : List ReAct.Msg, ∃ name arg,
        ReAct.firstAction (model msgs) = some (name, arg) ∧
          (ReAct.lookupAction reg name).isSome = true) →
      (ReAct.query model reg q N).1 = ReAct.QueryResult.incomplete) := by
  constructor
  · intro model reg N q
    simpa using ReAct.queryGo_calls_le model reg N [] q 0
  · intro model reg N q hact
    exact ReAct.queryGo_incomplete model reg hact N [] q 0

/-- C5 witness: the amended theorem at a concrete model that always
emits a registered action — three turns, at most three model calls,
Incomplete result. -/
theorem c5_witness :
    (ReAct.query calcModel demoRegistry "q" 3).2 ≤ 3 ∧
    (ReAct.query calcModel demoRegistry "q" 3).1 = ReAct.QueryResult.incomplete :=
  ⟨c5_turn_bound_amended.1 calcModel demoRegistry 3 "q",
   c5_turn_bound_amended.2 calcModel demoRegistry 3 "q"
     (fun _ => ⟨"calculate", "4 * 7", rfl, rfl⟩)⟩

/-- C6: on every turn whose first matching action line names an action
absent from the registry, the loop aborts with the fatal unknown-action
error, executing nothing further; when the name is registered, the loop
continues with `"Observation: "` prefixed to the registered callable's
result applied to the parsed argument. -/
theorem c6_dispatch (model : List ReAct.Msg → String) (reg : ReAct.Registry)
    (fuel : Nat) (msgs : List ReAct.Msg) (p : String) (calls : Nat)
    (name arg : String)
    (h : ReAct.firstAction (model (msgs ++ [⟨ReAct.Role.user, p⟩])) = some (name, arg)) :
    (ReAct.lookupAction reg name = none →
      ReAct.queryGo model reg (fuel + 1) msgs p calls
        = (ReAct.QueryResult.unknownAction name arg, calls + 1)) ∧
    (∀ f, ReAct.lookupAction reg name = some f →
      ReAct.queryGo model reg (fuel + 1) msgs p calls
        = ReAct.queryGo model reg fuel
            (msgs ++ [⟨ReAct.Role.user, p⟩,
                      ⟨ReAct.Role.assistant, model (msgs ++ [⟨ReAct.Role.user, p⟩])⟩])
            ("Observation: " ++ f arg) (calls + 1)) := by
  constructor
  · intro hl
    simp only [ReAct.queryGo, h, hl]
  · intro f hl
    simp only [ReAct.queryGo, h, hl, List.append_assoc, List.singleton_append,
      List.cons_append, List.nil_append]

/-- C6 witness: the dispatch theorem at concrete inputs — the
unregistered name `fly` aborts the run, the registered name `calculate`
feeds the callable's output back as the next observation. -/
theorem c6_witness :
    ReAct.queryGo flyModel demoRegistry 5 [] "q" 0
      = (ReAct.QueryResult.unknownAction "fly" "to the moon", 1) ∧
    ReAct.queryGo calcModel demoRegistry 5 [] "q" 0
      = ReAct.queryGo calcModel demoRegistry 4
          [⟨ReAct.Role.user, "q"⟩, ⟨ReAct.Role.assistant, "Action: calculate: 4 * 7"⟩]
          ("Observation: 4 * 7 = 28") 1 :=
  ⟨(c6_dispatch flyModel demoRegistry 4 [] "q" 0 "fly" "to the moon" (by decide)).1 rfl,
   (c6_dispatch calcModel demoRegistry 4 [] "q" 0 "calculate" "4 * 7" (by decide)).2
     (fun s => s ++ " = 28") rfl⟩

/-- C8: the conditional edge at `generate`'s outgoing transition routes
to the terminal sentinel if and only if `revision_number` is strictly
greater than `max_revisions`; at equality it routes to `reflect`. -/
theorem c8_conditional_edge (s : Workflow.AgentState) (r : Int)
    (h : s.revision_number = some r) :
    (Workflow.should_continue s = some Workflow.ENDNode ↔ r > s.max_revisions) ∧
    (r = s.max_revisions → Workflow.should_continue s = some "reflect") := by
  unfold Workflow.should_continue
  rw [h]
  dsimp only
  by_cases hgt : r > s.max_revisions
  · rw [if_pos hgt]
    exact ⟨⟨fun _ => hgt, fun _ => rfl⟩, fun he => absurd hgt (by omega)⟩
  · rw [if_neg hgt]
    exact ⟨⟨fun he => absurd (Option.some.inj he) (by decide), fun hg => absurd hg hgt⟩,
           fun _ => rfl⟩

/-- A state with `revision_number` equal to `max_revisions`, at the
boundary the claims probe. -/
def boundaryState : Workflow.AgentState :=
  { task := "t", plan := "p", draft := "d", critique := "c",
    content := some [], revision_number := some 2, max_revisions := 2 }

/-- C8 witness: at `revision_number = max_revisions = 2` the edge
routes to `reflect`, not to the terminal sentinel. -/
theorem c8_witness :
    Workflow.should_continue boundaryState = some "reflect" ∧
    ¬ Workflow.should_continue boundaryState = some Workflow.ENDNode :=
  ⟨(c8_conditional_edge boundaryState 2 rfl).2 rfl,
   fun he => by
     have := (c8_conditional_edge boundaryState 2 rfl).1.mp he
     simp [boundaryState] at this⟩

/-- C10: `generation_node` tolerates a missing `revision_number`
(`state.get("revision_number", 1)`), returning `2`; a present value `v`
becomes exactly `v + 1`. -/
theorem c10_generation_revision (O : Workflow.Oracles) (s : Workflow.AgentState) :
    (s.revision_number = none →
      (Workflow.generation_node O s).revision_number = some 2) ∧
    (∀ v : Int, s.revision_number = some v →
      (Workflow.generation_node O s).revision_number = some (v + 1)) := by
  constructor
  · intro h
    simp [Workflow.generation_node, h]
  · intro v h
    simp [Workflow.generation_node, h]

/-- JSON payloads used by concrete oracle instantiations
(`\x7b` and `\x7d` are the brace characters). -/
def planPayload : String := "\x7b\"queries\": [\"q1\"]\x7d"

def critiquePayload : String := "\x7b\"queries\": [\"q2\"]\x7d"

/-- Concrete oracle bundle: constant model texts, a decoder that accepts
exactly the two payloads above, one snippet per search. -/
def demoOracles : Workflow.Oracles :=
  { planModel := fun _ => "plan"
    draftModel := fun _ _ _ => "draft"
    critiqueModel := fun _ => "critique"
    planQueriesModel := fun _ => planPayload
    critiqueQueriesModel := fun _ => critiquePayload
    decode := fun t =>
      if t = planPayload then some ["q1"]
      else if t = critiquePayload then some ["q2"] else none
    search := fun q => [q ++ " snippet"] }

/-- A state lacking the `revision_number` key. -/
def noRevState : Workflow.AgentState :=
  { task := "t", plan := "p", draft := "d", critique := "c",
    content := some [], revision_number := none, max_revisions := 2 }

/-- C10 witness: the generation node at a state without
`revision_number` yields `2`; at the boundary state (value `2`) it
yields `3`. -/
theorem c10_witness :
    (Workflow.generation_node demoOracles noRevState).revision_number = some 2 ∧
    (Workflow.generation_node demoOracles boundaryState).revision_number = some 3 :=
  ⟨(c10_generation_revision demoOracles noRevState).1 rfl,
   (c10_generation_revision demoOracles boundaryState).2 2 rfl⟩

namespace Workflow

theorem research_plan_node_ok (O : Oracles) (s : AgentState) (qs : List String)
    (h : O.decode (extractJsonStr (O.planQueriesModel s.task)) = some qs) :
    research_plan_node O s =
      .ok ({ s with content := some (s.content.getD [] ++ (qs.map O.search).flatten) },
           qs.map O.search) := by
  simp [research_plan_node, h]

theorem research_plan_node_error_iff (O : Oracles) (s : AgentState) :
    research_plan_node O s = .error RunErr.parse ↔
      O.decode (extractJsonStr (O.planQueriesModel s.task)) = none := by
  cases h : O.decode (extractJsonStr (O.planQueriesModel s.task)) with
  | none => simp [research_plan_node, h]
  | some qs => simp [research_plan_node, h]

theorem research_critique_node_ok (O : Oracles) (s : AgentState) (qs : List String)
    (h : O.decode (extractJsonStr (O.critiqueQueriesModel s.critique)) = some qs) :
    research_critique_node O s =
      .ok ({ s with content := some (s.content.getD [] ++ (qs.map O.search).flatten) },
           qs.map O.search) := by
  simp [research_critique_node, h]

theorem research_critique_node_error_iff (O : Oracles) (s : AgentState) :
    research_critique_node O s = .error RunErr.parse ↔
      O.decode (extractJsonStr (O.critiqueQueriesModel s.critique)) = none := by
  cases h : O.decode (extractJsonStr (O.critiqueQueriesModel s.critique)) with
  | none => simp [research_critique_node, h]
  | some qs => simp [research_critique_node, h]

theorem firstIdxOf_lt_length :
    ∀ (cs : List Char) (c : Char) (k : Nat), firstIdxOf cs c = some k → k < cs.length
  | [], c, k, h => by simp [firstIdxOf] at h
  | x :: xs, c, k, h => by
    by_cases hx : x = c
    · simp only [firstIdxOf, if_pos hx] at h
      injection h with h1
      simp only [List.length_cons]
      omega
    · simp only [firstIdxOf, if_neg hx] at h
      cases hm : firstIdxOf xs c with
      | none => rw [hm] at h; simp at h
      | some m =>
        rw [hm] at h
        simp only [Option.map_some'] at h
        injection h with h1
        have := firstIdxOf_lt_length xs c m hm
        simp only [List.length_cons]
        omega

theorem lastIdxOf_lt_length :
    ∀ (cs : List Char) (c : Char) (k : Nat), lastIdxOf cs c = some k → k < cs.length
  | [], c, k, h => by simp [lastIdxOf] at h
  | x :: xs, c, k, h => by
    simp only [lastIdxOf] at h
    cases hm : lastIdxOf xs c with
    | some m =>
      rw [hm] at h
      have := lastIdxOf_lt_length xs c m hm
      injection h with h1
      simp only [List.length_cons]
      omega
    | none =>
      rw [hm] at h
      by_cases hx : x = c
      · rw [if_pos hx] at h
        injection h with h1
        simp only [List.length_cons]
        omega
      · rw [if_neg hx] at h
        cases h

theorem lastIdxOf_drop :
    ∀ (cs : List Char) (c : Char) (k : Nat), lastIdxOf cs c = some k →
      cs.drop k = c :: cs.drop (k + 1)
  | [], c, k, h => by simp [lastIdxOf] at h
  | x :: xs, c, k, h => by
    simp only [lastIdxOf] at h
    cases hm : lastIdxOf xs c with
    | some m =>
      rw [hm] at h
      injection h with h1
      subst h1
      simpa using lastIdxOf_drop xs c m hm
    | none =>
      rw [hm] at h
      by_cases hx : x = c
      · rw [if_pos hx] at h
        injection h with h1
        subst h1
        simp [hx]
      · rw [if_neg hx] at h
        cases h

theorem pyFind_to_first (text : String) (i : Nat)
    (hf : pyFind text '\x7b' = (i : Int)) : firstIdxOf text.data '\x7b' = some i := by
  unfold pyFind at hf
  cases hm : firstIdxOf text.data '\x7b' with
  | none =>
    rw [hm] at hf
    dsimp only at hf
    exact absurd hf (by omega)
  | some m =>
    rw [hm] at hf
    dsimp only at hf
    have hmi : m = i := by exact_mod_cast hf
    exact congrArg some hmi

theorem pyRFind_to_last (text : String) (j : Nat)
    (hr : pyRFind text '\x7d' = (j : Int)) : lastIdxOf text.data '\x7d' = some j := by
  unfold pyRFind at hr
  cases hm : lastIdxOf text.data '\x7d' with
  | none =>
    rw [hm] at hr
    dsimp only at hr
    exact absurd hr (by omega)
  | some m =>
    rw [hm] at hr
    dsimp only at hr
    have hmj : m = j := by exact_mod_cast hr
    exact congrArg some hmj

theorem extractJson_locates (text : String) (i j : Nat)
    (hf : pyFind text '\x7b' = (i : Int)) (hr : pyRFind text '\x7d' = (j : Int)) :
    extractJsonStr text = String.mk ((text.data.take (j + 1)).drop i) := by
  have hi := pyFind_to_first text i hf
  have hj := pyRFind_to_last text j hr
  have hilt := firstIdxOf_lt_length _ _ _ hi
  have hjlt := lastIdxOf_lt_length _ _ _ hj
  have e1 : pyIndex text.data.length (pyFind text '\x7b') = i := by
    unfold pyIndex
    rw [hf, if_neg (by omega)]
    omega
  have e2 : pyIndex text.data.length (pyRFind text '\x7d' + 1) = j + 1 := by
    unfold pyIndex
    rw [hr, if_neg (by omega)]
    omega
  unfold extractJsonStr pySlice
  rw [e1, e2]

end Workflow

namespace Workflow

theorem extractJson_absent (text : String)
    (h : pyFind text '\x7b' = -1 ∨ pyRFind text '\x7d' = -1) :
    extractJsonStr text = "" ∨ extractJsonStr text = "\x7d" := by
  by_cases hr : pyRFind text '\x7d' = -1
  · left
    unfold extractJsonStr pySlice
    rw [hr]
    have e0 : pyIndex text.data.length (-1 + 1) = 0 := by
      unfold pyIndex
      rw [if_neg (by omega)]
      omega
    rw [e0]
    simp only [List.take_zero, List.drop_nil]
  · have hf : pyFind text '\x7b' = -1 := by
      rcases h with h | h
      · exact h
      · exact absurd h hr
    cases hm : lastIdxOf text.data '\x7d' with
    | none =>
      exact absurd (by unfold pyRFind; rw [hm]) hr
    | some j =>
      have hjq : pyRFind text '\x7d' = (j : Int) := by unfold pyRFind; rw [hm]
      have hjlt := lastIdxOf_lt_length _ _ _ hm
      have ea : pyIndex text.data.length (pyFind text '\x7b') = text.data.length - 1 := by
        unfold pyIndex
        rw [hf, if_pos (by omega)]
        omega
      have eb : pyIndex text.data.length (pyRFind text '\x7d' + 1) = j + 1 := by
        unfold pyIndex
        rw [hjq, if_neg (by omega)]
        omega
      unfold extractJsonStr pySlice
      rw [ea, eb]
      by_cases hlast : j + 1 = text.data.length
      · right
        have ht : text.data.take (j + 1) = text.data := by
          rw [hlast]
          exact List.take_length text.data
        rw [ht]
        have hd := lastIdxOf_drop _ _ _ hm
        have hd2 : text.data.drop (j + 1) = [] := by
          rw [hlast]
          exact List.drop_length text.data
        rw [hd2] at hd
        have hj1 : text.data.length - 1 = j := by omega
        rw [hj1, hd]
      · left
        have hle : (text.data.take (j + 1)).length ≤ text.data.length - 1 := by
          rw [List.length_take]
          omega
        rw [List.drop_eq_nil_of_le hle]

end Workflow

/-- C7: a research node locates the structured payload as the substring
from the first opening brace to the last closing brace and hands exactly
that substring to the JSON decode step; absence of the payload or a
substring the decoder rejects is a fatal parse error surfaced to the
caller, with no retry (each node performs a single decode attempt by
construction). -/
theorem c7_payload_extraction :
    (∀ (O : Workflow.Oracles) (s : Workflow.AgentState),
      Workflow.research_plan_node O s = .error Workflow.RunErr.parse ↔
        O.decode (Workflow.extractJsonStr (O.planQueriesModel s.task)) = none) ∧
    (∀ (O : Workflow.Oracles) (s : Workflow.AgentState),
      Workflow.research_critique_node O s = .error Workflow.RunErr.parse ↔
        O.decode (Workflow.extractJsonStr (O.critiqueQueriesModel s.critique)) = none) ∧
    (∀ (text : String) (i j : Nat),
      Workflow.pyFind text '\x7b' = (i : Int) →
      Workflow.pyRFind text '\x7d' = (j : Int) →
      Workflow.extractJsonStr text = String.mk ((text.data.take (j + 1)).drop i)) ∧
    (∀ text : String,
      Workflow.pyFind text '\x7b' = -1 ∨ Workflow.pyRFind text '\x7d' = -1 →
      Workflow.extractJsonStr text = "" ∨ Workflow.extractJsonStr text = "\x7d") ∧
    (∀ (O : Workflow.Oracles) (s : Workflow.AgentState),
      O.decode "" = none → O.decode "\x7d" = none →
      (Workflow.pyFind (O.planQueriesModel s.task) '\x7b' = -1 ∨
        Workflow.pyRFind (O.planQueriesModel s.task) '\x7d' = -1) →
      Workflow.research_plan_node O s = .error Workflow.RunErr.parse) := by
  refine ⟨Workflow.research_plan_node_error_iff, Workflow.research_critique_node_error_iff,
    Workflow.extractJson_locates, Workflow.extractJson_absent, ?_⟩
  intro O s hemp hbrace habs
  rcases Workflow.extractJson_absent _ habs with he | he
  · exact (Workflow.research_plan_node_error_iff O s).mpr (he ▸ hemp)
  · exact (Workflow.research_plan_node_error_iff O s).mpr (he ▸ hbrace)

/-- Oracle whose research model emits no JSON payload and whose decoder
rejects everything (models `json.loads` failing). -/
def noPayloadOracles : Workflow.Oracles :=
  { planModel := fun _ => "plan"
    draftModel := fun _ _ _ => "draft"
    critiqueModel := fun _ => "critique"
    planQueriesModel := fun _ => "Here are some queries with no JSON at all"
    critiqueQueriesModel := fun _ => "still no JSON"
    decode := fun _ => none
    search := fun q => [q] }

/-- C7 witness: the extraction lemmas and the fatal-error behaviour at
concrete inputs — a payload embedded in noise is cut exactly from the
first opening to the last closing brace, and a payload-free text makes
the research node fail with the parse error. -/
theorem c7_witness :
    Workflow.extractJsonStr "noise \x7b\"queries\": [\"a\"]\x7d tail"
      = String.mk ((("noise \x7b\"queries\": [\"a\"]\x7d tail").data.take 24).drop 6) ∧
    (Workflow.extractJsonStr "no json here" = "" ∨
      Workflow.extractJsonStr "no json here" = "\x7d") ∧
    Workflow.research_plan_node noPayloadOracles (Workflow.initState "t" 2)
      = .error Workflow.RunErr.parse :=
  ⟨c7_payload_extraction.2.2.1 "noise \x7b\"queries\": [\"a\"]\x7d tail" 6 23
      (by decide) (by decide),
   c7_payload_extraction.2.2.2.1 "no json here" (Or.inl (by decide)),
   c7_payload_extraction.2.2.2.2 noPayloadOracles (Workflow.initState "t" 2)
      rfl rfl (Or.inl (by decide))⟩

/-- Payload carrying four queries, which the code accepts: nothing in
the nodes enforces the documented three-query bound. -/
def fourPayload : String := "\x7b\"queries\": [\"a\", \"b\", \"c\", \"d\"]\x7d"

/-- Oracle whose research model emits the four-query payload and whose
decoder accepts it (as `json.loads` + `Queries(**d)` do: the pydantic
model has no max-items constraint). -/
def fourQueryOracles : Workflow.Oracles :=
  { planModel := fun _ => "plan"
    draftModel := fun _ _ _ => "draft"
    critiqueModel := fun _ => "critique"
    planQueriesModel := fun _ => fourPayload
    critiqueQueriesModel := fun _ => fourPayload
    decode := fun t => if t = fourPayload then some ["a", "b", "c", "d"] else none
    search := fun q => [q] }

/-- C3 counterexample: a successfully parsed payload with four queries
makes `research_plan_node` perform four retrieval calls — the claimed
"at most 3 retrieval calls in total" bound does not exist in the code. -/
theorem c3_counterexample :
    Workflow.research_plan_node fourQueryOracles (Workflow.initState "t" 2)
      = .ok ({ Workflow.initState "t" 2 with content := some ["a", "b", "c", "d"] },
             [["a"], ["b"], ["c"], ["d"]]) ∧
    ([["a"], ["b"], ["c"], ["d"]] : List (List String)).length = 4 ∧ ¬ (4 ≤ 3) := by
  exact ⟨rfl, rfl, by omega⟩

/-- C3 (amended): for every structured-query payload successfully parsed
by a research node, the node performs exactly one retrieval call per
query in the payload — a payload with exactly 3 queries results in
exactly 3 retrieval calls — but no upper bound on the number of queries
or retrieval calls is enforced. -/
theorem c3_retrieval_per_query_amended :
    (∀ (O : Workflow.Oracles) (s : Workflow.AgentState) (qs : List String),
      O.decode (Workflow.extractJsonStr (O.planQueriesModel s.task)) = some qs →
      Workflow.research_plan_node O s =
        .ok ({ s with content := some (s.content.getD [] ++ (qs.map O.search).flatten) },
             qs.map O.search) ∧
        (qs.map O.search).length = qs.length ∧
        (qs.length = 3 → (qs.map O.search).length = 3)) ∧
    (∀ (O : Workflow.Oracles) (s : Workflow.AgentState) (qs : List String),
      O.decode (Workflow.extractJsonStr (O.critiqueQueriesModel s.critique)) = some qs →
      Workflow.research_critique_node O s =
        .ok ({ s with content := some (s.content.getD [] ++ (qs.map O.search).flatten) },
             qs.map O.search) ∧
        (qs.map O.search).length = qs.length ∧
        (qs.length = 3 → (qs.map O.search).length = 3)) := by
  constructor
  · intro O s qs h
    refine ⟨Workflow.research_plan_node_ok O s qs h, List.length_map qs O.search, ?_⟩
    intro h3
    rw [List.length_map, h3]
  · intro O s qs h
    refine ⟨Workflow.research_critique_node_ok O s qs h, List.length_map qs O.search, ?_⟩
    intro h3
    rw [List.length_map, h3]

/-- Payload carrying exactly three queries. -/
def threePayload : String := "\x7b\"queries\": [\"a\", \"b\", \"c\"]\x7d"

/-- Oracle whose research models emit the three-query payload. -/
def threeQueryOracles : Workflow.Oracles :=
  { planModel := fun _ => "plan"
    draftModel := fun _ _ _ => "draft"
    critiqueModel := fun _ => "critique"
    planQueriesModel := fun _ => threePayload
    critiqueQueriesModel := fun _ => threePayload
    decode := fun t => if t = threePayload then some ["a", "b", "c"] else none
    search := fun q => [q ++ "!"] }

/-- C3 witness: the amended theorem at a three-query payload — exactly
three retrieval calls, one per query. -/
theorem c3_witness :
    Workflow.research_plan_node threeQueryOracles (Workflow.initState "t" 2)
      = .ok ({ Workflow.initState "t" 2 with content := some ["a!", "b!", "c!"] },
             [["a!"], ["b!"], ["c!"]]) ∧
    ([["a!"], ["b!"], ["c!"]] : List (List String)).length = 3 :=
  ⟨(c3_retrieval_per_query_amended.1 threeQueryOracles (Workflow.initState "t" 2)
      ["a", "b", "c"] rfl).1,
   (c3_retrieval_per_query_amended.1 threeQueryOracles (Workflow.initState "t" 2)
      ["a", "b", "c"] rfl).2.2 rfl⟩

namespace Workflow

theorem should_continue_some (s : AgentState) (r : Int) (h : s.revision_number = some r) :
    should_continue s = some (if r > s.max_revisions then ENDNode else "reflect") := by
  unfold should_continue
  rw [h]

theorem research_plan_node_ok_inv (O : Oracles) (s p : AgentState)
    (calls : List (List String)) (h : research_plan_node O s = .ok (p, calls)) :
    p.content = some (s.content.getD [] ++ calls.flatten) ∧
    p.revision_number = s.revision_number ∧ p.max_revisions = s.max_revisions := by
  unfold research_plan_node at h
  dsimp only at h
  cases hd : O.decode (extractJsonStr (O.planQueriesModel s.task)) with
  | none => rw [hd] at h; cases h
  | some qs =>
    rw [hd] at h
    dsimp only at h
    injection h with h1
    obtain ⟨hp, hcalls⟩ := Prod.mk.injEq _ _ _ _ |>.mp h1
    subst hcalls
    subst hp
    exact ⟨rfl, rfl, rfl⟩

theorem research_critique_node_ok_inv (O : Oracles) (s p : AgentState)
    (calls : List (List String)) (h : research_critique_node O s = .ok (p, calls)) :
    p.content = some (s.content.getD [] ++ calls.flatten) ∧
    p.revision_number = s.revision_number ∧ p.max_revisions = s.max_revisions := by
  unfold research_critique_node at h
  dsimp only at h
  cases hd : O.decode (extractJsonStr (O.critiqueQueriesModel s.critique)) with
  | none => rw [hd] at h; cases h
  | some qs =>
    rw [hd] at h
    dsimp only at h
    injection h with h1
    obtain ⟨hp, hcalls⟩ := Prod.mk.injEq _ _ _ _ |>.mp h1
    subst hcalls
    subst hp
    exact ⟨rfl, rfl, rfl⟩

theorem runCycles_content (O : Oracles) :
    ∀ (fuel : Nat) (s : AgentState) (gens : Nat) (log : List (List String))
      (s' : AgentState) (gens' : Nat) (log' : List (List String)),
      runCycles O fuel s gens log = .ok (s', gens', log') →
      s.content = some log.flatten → s'.content = some log'.flatten := by
  intro fuel
  induction fuel with
  | zero =>
    intro s gens log s' gens' log' h hc
    cases h
  | succ n ih =>
    intro s gens log s' gens' log' h hc
    simp only [runCycles] at h
    cases hsc : should_continue (generation_node O s) with
    | none => rw [hsc] at h; cases h
    | some dest =>
      rw [hsc] at h
      dsimp only at h
      by_cases hdest : dest = ENDNode
      · rw [if_pos hdest] at h
        injection h with h1
        obtain ⟨hs, h2⟩ := Prod.mk.injEq _ _ _ _ |>.mp h1
        obtain ⟨hg, hl⟩ := Prod.mk.injEq _ _ _ _ |>.mp h2
        subst hs
        subst hl
        exact hc
      · rw [if_neg hdest] at h
        cases hcn : research_critique_node O (reflection_node O (generation_node O s)) with
        | error e => rw [hcn] at h; cases h
        | ok pr =>
          obtain ⟨s3, calls⟩ := pr
          rw [hcn] at h
          dsimp only at h
          have hinv := research_critique_node_ok_inv O _ _ _ hcn
          have hs3 : s3.content = some ((log ++ calls).flatten) := by
            rw [hinv.1]
            have : (reflection_node O (generation_node O s)).content = s.content := rfl
            rw [this, hc]
            simp [List.flatten_append]
          exact ih _ _ _ _ _ _ h hs3

end Workflow

namespace Workflow

theorem runCycles_count (O : Oracles) (hdec : ∀ t, (O.decode t).isSome = true) :
    ∀ (fuel : Nat) (s : AgentState) (gens : Nat) (log : List (List String)) (r : Int),
      s.revision_number = some r → 1 ≤ r → r ≤ s.max_revisions →
      (s.max_revisions - r).toNat < fuel →
      ∃ s' log', runCycles O fuel s gens log
        = .ok (s', gens + (s.max_revisions - r).toNat + 1, log') := by
  intro fuel
  induction fuel with
  | zero =>
    intro s gens log r hrev h1 hle hfuel
    omega
  | succ n ih =>
    intro s gens log r hrev h1 hle hfuel
    have hrev1 : (generation_node O s).revision_number = some (r + 1) := by
      simp [generation_node, hrev]
    have hsc := should_continue_some _ _ hrev1
    have hmax1 : (generation_node O s).max_revisions = s.max_revisions := rfl
    rw [hmax1] at hsc
    by_cases hend : r + 1 > s.max_revisions
    · rw [if_pos hend] at hsc
      have hK : (s.max_revisions - r).toNat = 0 := by omega
      refine ⟨generation_node O s, log, ?_⟩
      rw [hK]
      simp only [runCycles, hsc, if_true]
    · rw [if_neg hend] at hsc
      obtain ⟨qs, hqs⟩ := Option.isSome_iff_exists.mp
        (hdec (extractJsonStr (O.critiqueQueriesModel
          (reflection_node O (generation_node O s)).critique)))
      have hcrit := research_critique_node_ok O (reflection_node O (generation_node O s)) qs hqs
      obtain ⟨s', log', hrun⟩ := ih
        ({ reflection_node O (generation_node O s) with
            content := some ((reflection_node O (generation_node O s)).content.getD []
              ++ (qs.map O.search).flatten) })
        (gens + 1) (log ++ qs.map O.search) (r + 1)
        (by simp [reflection_node, generation_node, hrev])
        (by omega)
        (by show r + 1 ≤ s.max_revisions; omega)
        (by show (s.max_revisions - (r + 1)).toNat < n; omega)
      refine ⟨s', log', ?_⟩
      have hX : ({ reflection_node O (generation_node O s) with
            content := some ((reflection_node O (generation_node O s)).content.getD []
              ++ (qs.map O.search).flatten) } : AgentState).max_revisions
          = s.max_revisions := rfl
      rw [hX] at hrun
      have hc : gens + 1 + (s.max_revisions - (r + 1)).toNat + 1
          = gens + (s.max_revisions - r).toNat + 1 := by omega
      rw [hc] at hrun
      simp only [runCycles, hsc]
      rw [if_neg (by decide : ¬ ("reflect" = ENDNode)), hcrit]
      exact hrun

end Workflow

/-- Number of `generate` executions reported by a finished run
(`none` when the run failed). -/
def genCount
    (e : Except Workflow.RunErr (Workflow.AgentState × Nat × List (List String))) :
    Option Nat :=
  match e with
  | .ok (_, g, _) => some g
  | .error _ => none

/-- The state the demo run (`task = "t"`, `max_revisions = 2`,
`revision_number = 1`, `demoOracles`) finishes in. -/
def finalStateDemo : Workflow.AgentState :=
  { task := "t", plan := "plan", draft := "draft", critique := "critique",
    content := some ["q1 snippet", "q2 snippet"], revision_number := some 3,
    max_revisions := 2 }

/-- C1 counterexample: the run seeded with `revision_number = 1` and
`max_revisions = 2` performs exactly two `generate` invocations before
reaching the terminal sentinel (`generate(rev to 2), generate(rev to 3),
3 > 2` terminates), not the claimed three. -/
theorem c1_counterexample :
    Workflow.runWorkflow demoOracles "t" 2 2
      = .ok (finalStateDemo, 2, [["q1 snippet"], ["q2 snippet"]]) ∧ (2 : Nat) ≠ 3 :=
  ⟨rfl, by decide⟩

/-- C1 (amended): for every `N ≥ 1`, a run started with
`revision_number = 1` and `max_revisions = N` whose research payloads
all decode performs exactly `N` invocations of `generate` before
reaching the terminal sentinel; in particular with `max_revisions = 2`
there are two `generate` calls total. -/
theorem c1_generate_count_amended (O : Workflow.Oracles) (task : String)
    (N : Int) (fuel : Nat) (hN : 1 ≤ N)
    (hdec : ∀ t, (O.decode t).isSome = true) (hfuel : N.toNat ≤ fuel) :
    genCount (Workflow.runWorkflow O task N fuel) = some N.toNat := by
  unfold Workflow.runWorkflow
  dsimp only
  obtain ⟨qs, hqs⟩ := Option.isSome_iff_exists.mp
    (hdec (Workflow.extractJsonStr (O.planQueriesModel
      (Workflow.plan_node O (Workflow.initState task N)).task)))
  rw [Workflow.research_plan_node_ok O _ qs hqs]
  dsimp only
  obtain ⟨s', log', hrun⟩ := Workflow.runCycles_count O hdec fuel
    ({ Workflow.plan_node O (Workflow.initState task N) with
        content := some ((Workflow.plan_node O (Workflow.initState task N)).content.getD []
          ++ (qs.map O.search).flatten) })
    0 (qs.map O.search) 1 rfl (le_refl 1)
    (by show (1 : Int) ≤ N; omega)
    (by show (N - 1).toNat < fuel; omega)
  rw [hrun]
  show some (0 + (N - 1).toNat + 1) = some N.toNat
  congr 1
  omega

/-- Oracle bundle whose decoder accepts every string, for runs where
all research payloads parse. -/
def totalDecodeOracles : Workflow.Oracles :=
  { planModel := fun _ => "plan"
    draftModel := fun _ _ _ => "draft"
    critiqueModel := fun _ => "critique"
    planQueriesModel := fun _ => planPayload
    critiqueQueriesModel := fun _ => critiquePayload
    decode := fun _ => some ["q"]
    search := fun q => [q] }

/-- C1 witness: the amended count theorem at `max_revisions = 2` — the
finished run reports exactly two `generate` executions. -/
theorem c1_witness :
    genCount (Workflow.runWorkflow totalDecodeOracles "t" 2 2) = some 2 :=
  c1_generate_count_amended totalDecodeOracles "t" 2 2 (by omega)
    (fun _ => rfl) (by omega)

/-- C9: `content` is append-only — each research node returns the prior
`content` with that node's snippets appended, in call order, and nothing
is removed or reordered — and a completed run's `content` equals the
concatenation, in call order, of the snippets of every retrieval call
of the run. -/
theorem c9_content_append_only :
    (∀ (O : Workflow.Oracles) (s p : Workflow.AgentState) (calls : List (List String)),
      Workflow.research_plan_node O s = .ok (p, calls) →
      p.content = some (s.content.getD [] ++ calls.flatten)) ∧
    (∀ (O : Workflow.Oracles) (s p : Workflow.AgentState) (calls : List (List String)),
      Workflow.research_critique_node O s = .ok (p, calls) →
      p.content = some (s.content.getD [] ++ calls.flatten)) ∧
    (∀ (O : Workflow.Oracles) (task : String) (maxRev : Int) (fuel : Nat)
      (s : Workflow.AgentState) (g : Nat) (log : List (List String)),
      Workflow.runWorkflow O task maxRev fuel = .ok (s, g, log) →
      s.content = some log.flatten) := by
  refine ⟨fun O s p calls h => (Workflow.research_plan_node_ok_inv O s p calls h).1,
    fun O s p calls h => (Workflow.research_critique_node_ok_inv O s p calls h).1,
    ?_⟩
  intro O task maxRev fuel s g log h
  unfold Workflow.runWorkflow at h
  dsimp only at h
  cases hp : Workflow.research_plan_node O (Workflow.plan_node O (Workflow.initState task maxRev)) with
  | error e => rw [hp] at h; cases h
  | ok pr =>
    obtain ⟨s2, calls⟩ := pr
    rw [hp] at h
    dsimp only at h
    have hinv := Workflow.research_plan_node_ok_inv O _ _ _ hp
    have hs2 : s2.content = some calls.flatten := by
      rw [hinv.1]
      rfl
    exact Workflow.runCycles_content O fuel s2 0 calls s g log h hs2

/-- C9 witness: the run-level conjunct at the demo run — the final
`content` is exactly the flattened retrieval log, in call order. -/
theorem c9_witness :
    finalStateDemo.content
      = some ([["q1 snippet"], ["q2 snippet"]] : List (List String)).flatten :=
  c9_content_append_only.2.2 demoOracles "t" 2 2 finalStateDemo 2
    [["q1 snippet"], ["q2 snippet"]] rfl
